import Mathlib

/-!
Verification development for the translation unit src/cpp_has_something.cpp.

The unit consists of:
  * a macro DEFINE_has_member(member_name) generating, per member name, a
    class template temp_has_member_<name> whose static constexpr bool value
    is computed by overload resolution between
      test(decltype(&U::member_name))   -- yes_type (char)
      test(...)                          -- no_type  (long)
    so that value = (sizeof(test<T>(0)) == sizeof(yes_type));
  * a macro temp_has_member(class_, member_name) expanding to
    temp_has_member_<name><class_>::value;
  * demonstration structs CubeSphereObject (seven double fields, among them
    heading), B (bool heading), C (bool headings);
  * a class template test whose constructor prints the probe result for
    typename T::value_type, and a main instantiating it at
    std::vector<CubeSphereObject>, std::vector<B>, std::vector<C>.

The shallow embedding models a C++ class type as its list of member
declarations (name, kind, accessibility) together with a completeness flag,
and models the probe through the well-formedness of the expression &T::M
under C++ substitution-failure semantics, followed by the overload
selection and sizeof comparison written in the source.
-/

namespace CppHasSomething

/-- Kind of a C++ class member. The Bool on dataField records whether the
address of the member can be taken to form a pointer to member: false models
reference members and bit-fields. -/
inductive MemberKind where
  | dataField (addrOk : Bool)
  | memberFunction
  | nestedType
  | staticData
  | staticFunction
  deriving DecidableEq, Repr

/-- Whether an expression &U::M naming a member of this kind is well-formed:
a nested type cannot have its address taken, a data member only when it is
not a reference member or bit-field. -/
def MemberKind.addressable : MemberKind → Bool
  | .dataField a => a
  | .memberFunction => true
  | .nestedType => false
  | .staticData => true
  | .staticFunction => true

/-- One member declaration of a C++ class: its name, its kind, and whether
it is accessible to the probe (public, or private with friendship granted). -/
structure MemberDecl where
  name : String
  kind : MemberKind
  accessible : Bool
  deriving DecidableEq, Repr

/-- A C++ class type, as the probe observes it: whether the type is complete
and well-formed enough for a member reference, and its member declarations.
Members sharing a name form an overload set. -/
structure CppClass where
  complete : Bool
  members : List MemberDecl
  deriving DecidableEq, Repr

/-- The member declarations of T named M (the result of name lookup for
T::M). -/
def membersNamed (T : CppClass) (M : String) : List MemberDecl :=
  T.members.filter (fun d => d.name == M)

/-- Well-formedness of the expression &U::M after the substitution U := T,
per C++ substitution-failure rules: T must be complete, lookup must find a
unique declaration (an overload set of two or more cannot be resolved by
decltype without a target type), the declaration must be accessible (access
failure during substitution is a deduction failure, not a hard error), and
its address must be takable. -/
def addrOfMemberWF (T : CppClass) (M : String) : Bool :=
  T.complete &&
    match membersNamed T M with
    | [d] => d.accessible && d.kind.addressable
    | _ => false

/-- sizeof of yes_type, a typedef of char. -/
def sizeof_char : Nat := 1

/-- sizeof of no_type, a typedef of long (LP64, as any value other than 1
gives the same behavior). -/
def sizeof_long : Nat := 8

/-- An overload-resolution candidate for the call test<T>(0): its implicit
conversion rank for the argument 0 (lower is better) and the sizeof of its
result type. -/
structure Candidate where
  rank : Nat
  resultSize : Nat
  deriving DecidableEq, Repr

/-- Rank of converting the null pointer constant 0 to the parameter type
decltype(&U::M) of the first test overload. -/
def conversionRank : Nat := 1

/-- Rank of matching the ellipsis parameter of the fallback test overload. -/
def ellipsisRank : Nat := 3

/-- The viable candidates for test<T>(0): the first overload participates
only when decltype(&U::M) is well-formed for U := T; the ellipsis fallback
is always viable. -/
def testCandidates (T : CppClass) (M : String) : List Candidate :=
  (if addrOfMemberWF T M then [⟨conversionRank, sizeof_char⟩] else [])
    ++ [⟨ellipsisRank, sizeof_long⟩]

/-- Overload resolution: the viable candidate with the best (lowest)
conversion rank, none when no candidate is viable. -/
def selectOverload (cs : List Candidate) : Option Candidate :=
  cs.foldl
    (fun acc c =>
      match acc with
      | none => some c
      | some b => if c.rank < b.rank then some c else some b)
    none

/-- sizeof(test<T>(0)): the sizeof of the result type of the selected test
overload. -/
def test_result_sizeof (T : CppClass) (M : String) : Nat :=
  match selectOverload (testCandidates T M) with
  | some c => c.resultSize
  | none => 0

/-- temp_has_member(class_, member_name), that is
temp_has_member_<name><class_>::value, the static constexpr bool
sizeof(test<T>(0)) == sizeof(yes_type) of the generated probe class. -/
def temp_has_member (T : CppClass) (M : String) : Bool :=
  test_result_sizeof T M == sizeof_char

/-- The struct CubeSphereObject of the source: seven public double fields
x, y, z, width, length, height, heading. -/
def CubeSphereObject : CppClass :=
  { complete := true,
    members :=
      [⟨"x", .dataField true, true⟩, ⟨"y", .dataField true, true⟩,
       ⟨"z", .dataField true, true⟩, ⟨"width", .dataField true, true⟩,
       ⟨"length", .dataField true, true⟩, ⟨"height", .dataField true, true⟩,
       ⟨"heading", .dataField true, true⟩] }

/-- The struct B of the source: one public field, bool heading. -/
def B : CppClass :=
  { complete := true, members := [⟨"heading", .dataField true, true⟩] }

/-- The struct C of the source: one public field, bool headings. -/
def C : CppClass :=
  { complete := true, members := [⟨"headings", .dataField true, true⟩] }

/-- A type whose only member named m is a nested type: &T::m is ill-formed,
so the probe must answer false although an accessible member m is declared. -/
def NestedOnly : CppClass :=
  { complete := true, members := [⟨"m", .nestedType, true⟩] }

/-- A type whose member f is an overload set of two member functions:
decltype(&T::f) cannot be resolved, so the probe answers false. -/
def OverloadedOnly : CppClass :=
  { complete := true,
    members := [⟨"f", .memberFunction, true⟩, ⟨"f", .memberFunction, true⟩] }

/-- A type whose only member named r is a reference member, whose address
cannot be taken as a pointer to member. -/
def RefMemberOnly : CppClass :=
  { complete := true, members := [⟨"r", .dataField false, true⟩] }

/-- A type declaring a private member p and nothing else, with no friend
access granted to the probe. -/
def PrivateOnly : CppClass :=
  { complete := true, members := [⟨"p", .dataField true, false⟩] }

/-- A type whose member heading exists but is private, no friendship
granted. -/
def PrivateHeading : CppClass :=
  { complete := true, members := [⟨"heading", .dataField true, false⟩] }

/-- An incomplete type (forward-declared only): member lookup into it fails
during substitution. -/
def IncompleteTy : CppClass :=
  { complete := false, members := [] }

/-- std::vector<E> as used by the demonstration: a class template carrying
its element type. -/
structure StdVector where
  elem : CppClass

/-- The nested typedef value_type of std::vector: its element type. -/
def StdVector.value_type (v : StdVector) : CppClass := v.elem

/-- How cout renders a bool with default formatting (boolalpha not
enabled): as the integer 1 or 0. -/
def coutBool (b : Bool) : String := if b then "1" else "0"

/-- The lines printed by the constructor of test<T>: the fixed label and
the probe result for typename T::value_type on member name heading,
followed by a blank line (the second endl of the source). -/
def testCtorOutput (T : StdVector) : List String :=
  ["has_member(T, heading) " ++ coutBool (temp_has_member T.value_type "heading"), ""]

/-- The run of main: it takes no arguments, reads no configuration,
constructs test objects at std::vector<CubeSphereObject>, std::vector<B>,
std::vector<C> in that order (the destructors print nothing), and returns
0. The result is the list of printed lines and the exit code. -/
def mainRun (_args : List String) : List String × Nat :=
  (testCtorOutput ⟨CubeSphereObject⟩ ++ testCtorOutput ⟨B⟩ ++ testCtorOutput ⟨C⟩, 0)

/-- The name of the class generated by DEFINE_has_member(M) via token
pasting. -/
def probeClassName (M : String) : String := "temp_has_member_" ++ M

/-- The registration step DEFINE_has_member(M) inside a scope, modelled as
the scope of already-declared class names: defining a class whose name is
already declared in the same scope is a redefinition error; otherwise the
generated class name is added to the scope. -/
def DEFINE_has_member (scope : List String) (M : String) :
    Except String (List String) :=
  if probeClassName M ∈ scope then
    .error ("redefinition of " ++ probeClassName M)
  else
    .ok (scope ++ [probeClassName M])

/-- A runtime C++ expression, as far as the demonstration needs: a boolean
constant folded at compile time, a read or a write of a mutable global, or
a throw. Only the first form occurs in the program. -/
inductive CExpr where
  | boolConst (b : Bool)
  | readGlobal (i : Nat)
  | writeGlobal (i : Nat) (v : Int)
  | throwExc (msg : String)
  deriving DecidableEq, Repr

/-- Evaluation of a runtime expression over a store of mutable globals:
returns the value and the store after evaluation, or an exception. -/
def evalCExpr : CExpr → List Int → Except String (Int × List Int)
  | .boolConst b, s => .ok (if b then 1 else 0, s)
  | .readGlobal i, s => .ok (s.getD i 0, s)
  | .writeGlobal i v, s => .ok (v, s.set i v)
  | .throwExc msg, _ => .error msg

/-- The runtime occurrence of temp_has_member(T, M) in the program: value
is a static constexpr bool, so the expression the program evaluates at run
time is the boolean constant the compiler folded it to. -/
def checkExpr (T : CppClass) (M : String) : CExpr :=
  .boolConst (temp_has_member T M)

lemma temp_has_member_eq (T : CppClass) (M : String) :
    temp_has_member T M = addrOfMemberWF T M := by
  unfold temp_has_member test_result_sizeof testCandidates
  cases h : addrOfMemberWF T M <;> rfl

lemma addrWF_false_of_not_declared (T : CppClass) (M : String)
    (h : ∀ d ∈ T.members, d.name ≠ M) : addrOfMemberWF T M = false := by
  have hf : membersNamed T M = [] := by
    unfold membersNamed
    rw [List.filter_eq_nil_iff]
    intro d hd
    simpa using h d hd
  unfold addrOfMemberWF
  rw [hf]
  simp

lemma hasMember_false_of_not_declared (T : CppClass) (M : String)
    (h : ∀ d ∈ T.members, d.name ≠ M) : temp_has_member T M = false := by
  rw [temp_has_member_eq]
  exact addrWF_false_of_not_declared T M h

lemma hasMember_true_of_unique (T : CppClass) (M : String) (d : MemberDecl)
    (hc : T.complete = true) (hu : membersNamed T M = [d])
    (ha : d.accessible = true) (hk : d.kind.addressable = true) :
    temp_has_member T M = true := by
  rw [temp_has_member_eq]
  unfold addrOfMemberWF
  rw [hc, hu]
  simp [ha, hk]

lemma mem_of_membersNamed (T : CppClass) (M : String) (d : MemberDecl)
    (l : List MemberDecl) (h : membersNamed T M = d :: l) :
    d ∈ T.members ∧ d.name = M := by
  have hd : d ∈ membersNamed T M := by
    rw [h]
    exact List.mem_cons_self d l
  unfold membersNamed at hd
  have hft := List.mem_filter.mp hd
  exact ⟨hft.1, by simpa using hft.2⟩

/-- Claim C1, counterexample: NestedOnly declares an accessible member
named m (a nested type, one of the kinds the claim lists), yet
temp_has_member(NestedOnly, m) is false, because &T::m is ill-formed for a
nested type. -/
theorem C1_counterexample :
    (∃ d ∈ NestedOnly.members, d.name = "m" ∧ d.accessible = true) ∧
    temp_has_member NestedOnly "m" = false := by
  decide

/-- Claim C1, amended: for every complete type T whose lookup for M finds
exactly one declaration, which is accessible and whose address can be taken
by &T::M (a data member that is not a reference or bit-field, a
non-overloaded member function, or a static member — not a nested type),
temp_has_member(T, M) is true. -/
theorem C1_theorem (T : CppClass) (M : String) (d : MemberDecl)
    (hc : T.complete = true) (hu : membersNamed T M = [d])
    (ha : d.accessible = true) (hk : d.kind.addressable = true) :
    temp_has_member T M = true :=
  hasMember_true_of_unique T M d hc hu ha hk

theorem C1_witness : temp_has_member B "heading" = true :=
  C1_theorem B "heading" ⟨"heading", .dataField true, true⟩ rfl (by decide)
    rfl rfl

/-- Claim C2: for every type T that does not declare any member named M,
temp_has_member(T, M) is false, and overload resolution selects the
fallback overload (the ellipsis candidate returning no_type). -/
theorem C2_theorem (T : CppClass) (M : String)
    (h : ∀ d ∈ T.members, d.name ≠ M) :
    temp_has_member T M = false ∧
    selectOverload (testCandidates T M) = some ⟨ellipsisRank, sizeof_long⟩ := by
  have hwf := addrWF_false_of_not_declared T M h
  refine ⟨hasMember_false_of_not_declared T M h, ?_⟩
  simp [testCandidates, hwf, selectOverload]

theorem C2_witness :
    temp_has_member C "heading" = false ∧
    selectOverload (testCandidates C "heading") =
      some ⟨ellipsisRank, sizeof_long⟩ :=
  C2_theorem C "heading" (by decide)

/-- Claim C3, counterexample: PrivateOnly declares a member named p and no
member named q, so the claim asserts temp_has_member(PrivateOnly, p) =
true; in fact it is false, because the member is inaccessible. -/
theorem C3_counterexample :
    (∃ d ∈ PrivateOnly.members, d.name = "p") ∧
    (∀ d ∈ PrivateOnly.members, d.name ≠ "q") ∧
    temp_has_member PrivateOnly "q" = false ∧
    temp_has_member PrivateOnly "p" = false := by
  decide

/-- Claim C3, amended: the check is name-exact and ignores the member's own
type: for any type T declaring a member named N but not M (N different from
M), temp_has_member(T, M) is false, and temp_has_member(T, N) is true
provided T is complete and its unique member named N is accessible and
addressable; concretely, for CubeSphereObject with member double heading
the query for heading is true, for C with only bool headings the query for
heading is false, and for B with bool heading the query for heading is
true. -/
theorem C3_theorem (T : CppClass) (M N : String) (d : MemberDecl)
    (hNM : N ≠ M)
    (hnoM : ∀ e ∈ T.members, e.name ≠ M)
    (hc : T.complete = true)
    (hu : membersNamed T N = [d])
    (ha : d.accessible = true) (hk : d.kind.addressable = true) :
    temp_has_member T M = false ∧ temp_has_member T N = true ∧
    temp_has_member CubeSphereObject "heading" = true ∧
    temp_has_member C "heading" = false ∧
    temp_has_member B "heading" = true :=
  ⟨hasMember_false_of_not_declared T M hnoM,
   hasMember_true_of_unique T N d hc hu ha hk,
   by decide, by decide, by decide⟩

theorem C3_witness :
    temp_has_member C "heading" = false ∧
    temp_has_member C "headings" = true ∧
    temp_has_member CubeSphereObject "heading" = true ∧
    temp_has_member C "heading" = false ∧
    temp_has_member B "heading" = true :=
  C3_theorem C "heading" "headings" ⟨"headings", .dataField true, true⟩
    (by decide) (by decide) rfl (by decide) rfl rfl

/-- Claim C4: for every type T where a member named M exists but every
declaration of that name is inaccessible (private, with no friend access
granted to the probe), temp_has_member(T, M) is false: accessibility, not
mere existence, gates the true result. -/
theorem C4_theorem (T : CppClass) (M : String)
    (hex : ∃ d ∈ T.members, d.name = M)
    (hpriv : ∀ d ∈ T.members, d.name = M → d.accessible = false) :
    temp_has_member T M = false := by
  rw [temp_has_member_eq]
  unfold addrOfMemberWF
  cases h : membersNamed T M with
  | nil => simp
  | cons d tail =>
    cases tail with
    | nil =>
      obtain ⟨hmem, hname⟩ := mem_of_membersNamed T M d [] h
      have hacc := hpriv d hmem hname
      simp [hacc]
    | cons e rest => simp

theorem C4_witness : temp_has_member PrivateHeading "heading" = false :=
  C4_theorem PrivateHeading "heading" (by decide) (by decide)

/-- Claim C5: the probe's value coincides exactly with the well-formedness
of the expression &T::M; in particular it is false when the member exists
only as an overload set of member functions, only as a nested type, or as
a member whose address cannot be taken (a reference member or bit-field). -/
theorem C5_theorem :
    (∀ (T : CppClass) (M : String),
      temp_has_member T M = addrOfMemberWF T M) ∧
    temp_has_member OverloadedOnly "f" = false ∧
    temp_has_member NestedOnly "m" = false ∧
    temp_has_member RefMemberOnly "r" = false :=
  ⟨temp_has_member_eq, by decide, by decide, by decide⟩

/-- Claim C6: the demonstration applies the probe to each vector's element
type (typename T::value_type), and main prints 1 for
std::vector<CubeSphereObject>, 1 for std::vector<B>, 0 for std::vector<C>,
in that order, as digits because boolalpha is not enabled. -/
theorem C6_theorem :
    mainRun [] =
      (["has_member(T, heading) 1", "", "has_member(T, heading) 1", "",
        "has_member(T, heading) 0", ""], 0) ∧
    temp_has_member (StdVector.value_type ⟨CubeSphereObject⟩) "heading" = true ∧
    temp_has_member (StdVector.value_type ⟨B⟩) "heading" = true ∧
    temp_has_member (StdVector.value_type ⟨C⟩) "heading" = false := by
  decide

/-- Claim C7: on every run (whatever the command line, which main ignores)
the program prints exactly three labeled boolean results, each followed by
a blank line, and exits with code 0. -/
theorem C7_theorem :
    ∀ args : List String,
      mainRun args = mainRun [] ∧
      (mainRun args).2 = 0 ∧
      ∃ r1 r2 r3 : Bool,
        (mainRun args).1 =
          ["has_member(T, heading) " ++ coutBool r1, "",
           "has_member(T, heading) " ++ coutBool r2, "",
           "has_member(T, heading) " ++ coutBool r3, ""] :=
  fun _ => ⟨rfl, rfl, true, true, false, rfl⟩

/-- Claim C8: once DEFINE_has_member(M) has succeeded in a scope, invoking
it again for the same member name in the resulting scope fails with a
redefinition error naming the generated probe class. -/
theorem C8_theorem (scope : List String) (M : String) (s2 : List String)
    (h : DEFINE_has_member scope M = Except.ok s2) :
    DEFINE_has_member s2 M =
      Except.error ("redefinition of " ++ probeClassName M) := by
  unfold DEFINE_has_member at h ⊢
  by_cases hmem : probeClassName M ∈ scope
  · simp [hmem] at h
  · simp [hmem] at h
    subst h
    simp

theorem C8_witness :
    DEFINE_has_member [] "heading" = Except.ok ["temp_has_member_heading"] ∧
    DEFINE_has_member ["temp_has_member_heading"] "heading" =
      Except.error ("redefinition of " ++ probeClassName "heading") :=
  ⟨rfl, C8_theorem [] "heading" ["temp_has_member_heading"] rfl⟩

/-- Claim C9: when the queried type T is incomplete (or malformed so that
the member reference &T::M is invalid, which the model renders as the
completeness flag being false), temp_has_member(T, M) is false rather than
a build error: the lookup failure is a substitution failure in the
immediate context. -/
theorem C9_theorem (T : CppClass) (M : String) (h : T.complete = false) :
    temp_has_member T M = false := by
  rw [temp_has_member_eq]
  unfold addrOfMemberWF
  rw [h]
  simp

theorem C9_witness : temp_has_member IncompleteTy "heading" = false :=
  C9_theorem IncompleteTy "heading" rfl

/-- Claim C10: for a fixed pair (T, M) the probe is a single immutable
compile-time boolean constant: evaluating the folded constant at run time
yields the same value from any store, never throws, and leaves the store
unchanged. -/
theorem C10_theorem :
    ∀ (T : CppClass) (M : String) (s1 s2 : List Int),
      ∃ v : Int,
        evalCExpr (checkExpr T M) s1 = Except.ok (v, s1) ∧
        evalCExpr (checkExpr T M) s2 = Except.ok (v, s2) :=
  fun T M _ _ => ⟨if temp_has_member T M then 1 else 0, rfl, rfl⟩

end CppHasSomething
